import Mathlib

/-!
Verification development for the voice-conversation turn orchestrator of the
realtime-whisper-aurix repository.

The definitions below are a shallow embedding of the push-to-talk revision of
`src/electron/conversation-manager.ts` (class `ConversationOrchestrator`) and of
`src/electron/openai-chat.ts` (class `ConversationManager`).

Modelling conventions:
- Machine state is the record of the class fields.  Nullable timer handles and
  the nullable `sttSession` are modelled as booleans (set / not set); the wall
  clock `Date.now()` is passed in as an explicit `now : Nat` where the source
  reads it.  `speechStartTime` and `speechCollectionDuration` are kept as state
  fields because the source stores them, but real elapsed time is not modelled.
- Event emission (`this.emit(...)`) and the orchestrator log output are the
  observable behaviour; each operation returns the list of events it emits, in
  emission order.  `console.log` calls are not modelled.
- `async` functions suspend at each `await`.  At a suspension point the outside
  world may run; the embedding threads explicit parameters saying what external
  calls happen there (a `stop()` call, a transcript arrival, an STT error).
  The results of the awaited collaborator calls (chat completion, speech
  synthesis) are passed in as `Except` values, since the collaborators are
  external to this repository.
-/

/-- Conversation states, named as the union type `ConversationState` in the
source.  The specification names `responding`, `synthesizing`, `speaking`
correspond to the source names `ai_thinking`, `tts_generating`, `ai_speaking`. -/
inductive ConversationState
  | idle
  | listening
  | transcribing
  | ai_thinking
  | tts_generating
  | ai_speaking
deriving DecidableEq, Repr

/-- Conversation modes, as the union type `ConversationMode` in the source. -/
inductive ConversationMode
  | continuous
  | singleTurn
deriving DecidableEq, Repr

/-- TTS model identifiers accepted by the source. -/
inductive TTSModel
  | tts1
  | tts1Max
deriving DecidableEq, Repr

/-- Outward events emitted by the orchestrator (the arguments of
`this.emit(...)` calls in the source).  Audio buffers are byte lists. -/
inductive Event
  | started (mode : ConversationMode)
  | stopped
  | state_changed (s : ConversationState)
  | user_speaking
  | user_stopped_speaking
  | user_spoke (text : String)
  | ai_response (text : String)
  | ai_audio (buffer : List Nat)
  | turn_complete
  | no_speech_detected
  | error (msg : String)
deriving DecidableEq, Repr

/-- The fields of class `ConversationOrchestrator`
(`src/electron/conversation-manager.ts`).  `sttSessionBound`,
`transcriptionTimeoutSet` and `speechCollectionTimerSet` model whether the
corresponding nullable field is non-null. -/
structure Orchestrator where
  sttSessionBound : Bool
  isActive : Bool
  currentState : ConversationState
  mode : ConversationMode
  voiceId : String
  modelId : TTSModel
  processingResponse : Bool
  lastTranscription : String
  transcriptionTimeoutSet : Bool
  speechStartTime : Nat
  speechCollectionDuration : Nat
  speechCollectionTimerSet : Bool
  isCollectingSpeech : Bool
deriving DecidableEq, Repr

/-- The field initializers of `ConversationOrchestrator` (constructor state). -/
def initialOrchestrator : Orchestrator where
  sttSessionBound := false
  isActive := false
  currentState := .idle
  mode := .continuous
  voiceId := ""
  modelId := .tts1
  processingResponse := false
  lastTranscription := ""
  transcriptionTimeoutSet := false
  speechStartTime := 0
  speechCollectionDuration := 7000
  speechCollectionTimerSet := false
  isCollectingSpeech := false

/-- Embeds `private setState(state)`: record the state and emit
`state_changed`. -/
def setState (o : Orchestrator) (s : ConversationState) :
    Orchestrator × List Event :=
  ({ o with currentState := s }, [Event.state_changed s])

/-- Embeds `start(sttSession, options)`.  Collaborator readiness
(`chatManager.isInitialized()`, `isTTSInitialized()`) is passed in as booleans;
a thrown `Error` is an `Except.error` with the thrown message. -/
def start (o : Orchestrator) (chatReady ttsReady : Bool)
    (mode : Option ConversationMode) (voiceId : Option String)
    (modelId : Option TTSModel) :
    Except String (Orchestrator × List Event) :=
  if o.isActive then .error "Conversation already active"
  else if !chatReady then .error "Chat manager not initialized"
  else if !ttsReady then .error "TTS not initialized"
  else
    let o1 : Orchestrator :=
      { o with sttSessionBound := true
               isActive := true
               mode := mode.getD .continuous
               voiceId := voiceId.getD ""
               modelId := modelId.getD .tts1 }
    let (o2, e1) := setState o1 .idle
    .ok (o2, e1 ++ [Event.started o2.mode])

/-- Embeds `stop()`: no-op when inactive, otherwise clear the activity flag,
go to idle, reset the turn flags, clear both timers, unbind the STT session and
emit `stopped`. -/
def stop (o : Orchestrator) : Orchestrator × List Event :=
  if !o.isActive then (o, [])
  else
    let o1 : Orchestrator := { o with isActive := false }
    let (o2, e1) := setState o1 .idle
    let o3 : Orchestrator :=
      { o2 with processingResponse := false
                isCollectingSpeech := false
                transcriptionTimeoutSet := false
                speechCollectionTimerSet := false
                sttSessionBound := false }
    (o3, e1 ++ [Event.stopped])

/-- Models JavaScript `String.prototype.trim()` over the character list:
drop leading and trailing whitespace.  (The library `String.trim` is
extensionally the same on the strings involved here but is defined by
well-founded recursion, which the kernel cannot evaluate; this structural
definition keeps every operation computable.) -/
def jsTrim (s : String) : String :=
  ⟨((s.data.dropWhile Char.isWhitespace).reverse.dropWhile
      Char.isWhitespace).reverse⟩

/-- Embeds the `transcription` listener installed by `setupSTTListeners`: a
fragment is dropped when the session is inactive, a response is being
processed, no collection window is open, or the trimmed text is shorter than 3
characters; otherwise it overwrites `lastTranscription`.  No event is emitted
either way. -/
def onTranscription (o : Orchestrator) (text : String) :
    Orchestrator × List Event :=
  if !o.isActive || o.processingResponse || !o.isCollectingSpeech then (o, [])
  else if (jsTrim text).length < 3 then (o, [])
  else ({ o with lastTranscription := text }, [])

/-- Embeds the `error` listener installed by `setupSTTListeners`: always emit
an `error` event; when active additionally reset the turn flags and go to
idle.  Note that the collection-window timer is NOT cleared here. -/
def onSTTError (o : Orchestrator) (msg : String) : Orchestrator × List Event :=
  let evs := [Event.error ("STT error: " ++ msg)]
  if o.isActive then
    let o1 : Orchestrator :=
      { o with processingResponse := false, isCollectingSpeech := false }
    let (o2, e1) := setState o1 .idle
    (o2, evs ++ e1)
  else (o, evs)

/-- Result of running a turn pipeline: final state, emitted events in order,
and the list of arguments passed to the Chat Responder `sendMessage` call. -/
structure TurnResult where
  orch : Orchestrator
  events : List Event
  chatCalls : List String
deriving DecidableEq, Repr

/-- Embeds `private async handleUserTranscription(transcription)`.

The awaited collaborator results are parameters: `chat` is the outcome of
`generateAIResponse` as seen at its `await` (the message of a chat failure is
already wrapped by `generateAIResponse` into
`Failed to generate AI response: ...`, and a synthesis failure into
`Failed to generate speech: ...` by `generateSpeech`; the wrapping is applied
here so the parameters carry the raw collaborator messages).  The booleans say
whether `stop()` was invoked by the outside world during the corresponding
`await` (the chat call, the synthesis call, and the estimated-playback wait);
the events those interleaved `stop()` calls emit are part of the returned
trace, in order. -/
def handleUserTranscription (o : Orchestrator) (transcription : String)
    (chat : Except String String) (tts : Except String (List Nat))
    (stopDuringChat stopDuringTTS stopDuringWait : Bool) : TurnResult :=
  if !o.isActive || o.processingResponse then ⟨o, [], []⟩
  else
    let o1 : Orchestrator :=
      { o with processingResponse := true
               speechStartTime := 0
               speechCollectionTimerSet := false }
    let evs0 := [Event.user_spoke transcription]
    let (o2, e1) := setState o1 .ai_thinking
    -- suspension point: await this.generateAIResponse(transcription)
    let (o3, eStop1) := if stopDuringChat then stop o2 else (o2, [])
    match chat with
    | .error msg =>
      -- the catch block of handleUserTranscription, reached on rejection
      let evsErr := [Event.error ("Failed to generate AI response: " ++ msg)]
      let o4 : Orchestrator :=
        { o3 with processingResponse := false
                  isCollectingSpeech := false
                  lastTranscription := "" }
      if o4.isActive then
        let (o5, e2) := setState o4 .idle
        ⟨o5, evs0 ++ e1 ++ eStop1 ++ evsErr ++ e2, [transcription]⟩
      else ⟨o4, evs0 ++ e1 ++ eStop1 ++ evsErr, [transcription]⟩
    | .ok aiResponse =>
      if !o3.isActive then ⟨o3, evs0 ++ e1 ++ eStop1, [transcription]⟩
      else
        let evsAI := [Event.ai_response aiResponse]
        let (o4, e2) := setState o3 .tts_generating
        -- suspension point: await this.generateSpeech(aiResponse)
        let (o5, eStop2) := if stopDuringTTS then stop o4 else (o4, [])
        match tts with
        | .error msg =>
          let evsErr := [Event.error ("Failed to generate speech: " ++ msg)]
          let o6 : Orchestrator :=
            { o5 with processingResponse := false
                      isCollectingSpeech := false
                      lastTranscription := "" }
          if o6.isActive then
            let (o7, e3) := setState o6 .idle
            ⟨o7, evs0 ++ e1 ++ eStop1 ++ evsAI ++ e2 ++ eStop2 ++ evsErr ++ e3,
              [transcription]⟩
          else
            ⟨o6, evs0 ++ e1 ++ eStop1 ++ evsAI ++ e2 ++ eStop2 ++ evsErr,
              [transcription]⟩
        | .ok audioBuffer =>
          if !o5.isActive then
            ⟨o5, evs0 ++ e1 ++ eStop1 ++ evsAI ++ e2 ++ eStop2, [transcription]⟩
          else
            let (o6, e3) := setState o5 .ai_speaking
            let evsAudio := [Event.ai_audio audioBuffer]
            -- suspension point: await this.wait(estimatedDuration)
            let (o7, eStop3) := if stopDuringWait then stop o6 else (o6, [])
            let o8 : Orchestrator :=
              { o7 with processingResponse := false
                        isCollectingSpeech := false
                        lastTranscription := "" }
            if o8.isActive then
              let (o9, e4) := setState o8 .idle
              ⟨o9, evs0 ++ e1 ++ eStop1 ++ evsAI ++ e2 ++ eStop2 ++ e3 ++
                evsAudio ++ eStop3 ++ e4 ++ [Event.turn_complete],
                [transcription]⟩
            else
              ⟨o8, evs0 ++ e1 ++ eStop1 ++ evsAI ++ e2 ++ eStop2 ++ e3 ++
                evsAudio ++ eStop3, [transcription]⟩

/-- Embeds `startRecording()`: rejected (complete no-op) when inactive,
processing, or already collecting; otherwise open a collection window:
set the collection flag, record the start time, clear the pending transcript,
go to listening, emit `user_speaking`, and arm the window timer. -/
def startRecording (o : Orchestrator) (now : Nat) : Orchestrator × List Event :=
  if !o.isActive || o.processingResponse || o.isCollectingSpeech then (o, [])
  else
    let o1 : Orchestrator :=
      { o with isCollectingSpeech := true
               speechStartTime := now
               lastTranscription := "" }
    let (o2, e1) := setState o1 .listening
    let o3 : Orchestrator := { o2 with speechCollectionTimerSet := true }
    (o3, e1 ++ [Event.user_speaking])

/-- External calls that can run while the grace-wait polling loop is suspended
in one `await this.wait(100)`:  nothing, a `stop()` call, a transcript
fragment delivered by the Transcript Source, or a Transcript Source error. -/
inductive GraceAction
  | tick
  | stopCall
  | arrive (text : String)
  | sttErr (msg : String)
deriving DecidableEq, Repr

/-- Runs the external calls of one suspension, in order. -/
def applyGraceAction (o : Orchestrator) : GraceAction → Orchestrator × List Event
  | .tick => (o, [])
  | .stopCall => stop o
  | .arrive t => onTranscription o t
  | .sttErr m => onSTTError o m

/-- Runs a list of external calls of one suspension, in order, concatenating
the events they emit. -/
def applyGraceActions (o : Orchestrator) :
    List GraceAction → Orchestrator × List Event
  | [] => (o, [])
  | a :: rest =>
    let (o1, e1) := applyGraceAction o a
    let (o2, e2) := applyGraceActions o1 rest
    (o2, e1 ++ e2)

/-- The emptiness test the window-timer callback applies to
`this.lastTranscription`: `!this.lastTranscription ||
this.lastTranscription.trim().length === 0` (and its negation in the final
`if`). -/
def transcriptEmpty (s : String) : Bool :=
  (s.length == 0) || ((jsTrim s).length == 0)

/-- Embeds the polling loop of the window-timer callback:
`while (attempts < maxAttempts && empty) { await this.wait(100); attempts++ }`.
`fuel` is `maxAttempts - attempts` (30 at entry); `acts` gives, per loop
iteration, the external calls that run during that iteration's
`await this.wait(100)`. -/
def graceLoop (o : Orchestrator) :
    Nat → List (List GraceAction) → Orchestrator × List Event
  | 0, _ => (o, [])
  | _ + 1, [] => (o, [])
  | fuel + 1, a :: rest =>
    if transcriptEmpty o.lastTranscription then
      let (o1, e1) := applyGraceActions o a
      let (o2, e2) := graceLoop o1 fuel rest
      (o2, e1 ++ e2)
    else (o, [])

/-- Embeds the `setTimeout` callback armed by `startRecording` (the
window-timer callback): go to transcribing, clear the transcription timeout,
run the grace-wait polling loop, then either process the collected transcript
through `handleUserTranscription` or emit `no_speech_detected` and go to
idle. -/
def windowTimerFire (o : Orchestrator) (graceActs : List (List GraceAction))
    (chat : Except String String) (tts : Except String (List Nat))
    (stopDuringChat stopDuringTTS stopDuringWait : Bool) : TurnResult :=
  let (o1, e1) := setState o .transcribing
  let o2 : Orchestrator := { o1 with transcriptionTimeoutSet := false }
  let (o3, e2) := graceLoop o2 30 graceActs
  if transcriptEmpty o3.lastTranscription then
    let o4 : Orchestrator := { o3 with isCollectingSpeech := false }
    let (o5, e3) := setState o4 .idle
    ⟨o5, e1 ++ e2 ++ e3 ++ [Event.no_speech_detected], []⟩
  else
    let r := handleUserTranscription o3 o3.lastTranscription chat tts
      stopDuringChat stopDuringTTS stopDuringWait
    ⟨r.orch, e1 ++ e2 ++ r.events, r.chatCalls⟩

/-- Delivery of a sequence of transcript fragments through the STT
`transcription` listener (no fragment emits events, so only the state is
threaded). -/
def deliverFragments (o : Orchestrator) : List String → Orchestrator
  | [] => o
  | t :: rest => deliverFragments (onTranscription o t).1 rest

/-- Events that terminate an attempted turn from the point of view of the UI:
`turn_complete`, `no_speech_detected`, or `error`. -/
def isTerminalSignal : Event → Bool
  | .turn_complete => true
  | .no_speech_detected => true
  | .error _ => true
  | _ => false

/-- Number of terminal signals in a trace. -/
def terminalCount (evs : List Event) : Nat :=
  (evs.filter isTerminalSignal).length

/-- The suffix of a trace strictly after the first `stopped` event (empty when
no `stopped` occurs). -/
def eventsAfterStopped (evs : List Event) : List Event :=
  (evs.dropWhile fun e => e != Event.stopped).drop 1

/-- The state of an orchestrator just after a successful
`start(stt, mode single-turn)` from the freshly constructed instance. -/
def singleTurnStarted : Orchestrator :=
  { initialOrchestrator with
      sttSessionBound := true
      isActive := true
      mode := .singleTurn }

/-!
Shallow embedding of class `ConversationManager` (`src/electron/openai-chat.ts`).

The OpenAI client handle is modelled as the boolean `clientSet` (non-null);
the outcome of each `this.openai.chat.completions.create(...)` call is passed
in as an `ApiOutcome`.  Message timestamps and the `temperature` / `maxTokens`
request parameters are not modelled: they never influence control flow or the
history contents.
-/

/-- Message roles of the `ChatMessage` interface. -/
inductive Role
  | system
  | user
  | assistant
deriving DecidableEq, Repr

/-- A `ChatMessage` (the optional timestamp is not modelled). -/
structure ChatMessage where
  role : Role
  content : String
deriving DecidableEq, Repr

/-- The fields of class `ConversationManager` that the claims touch:
the nullable client handle, the merged configuration entries that matter
(`systemPrompt`, `maxHistoryLength`) and the conversation history. -/
structure ChatState where
  clientSet : Bool
  systemPrompt : String
  maxHistoryLength : Nat
  conversationHistory : List ChatMessage
deriving DecidableEq, Repr

/-- The defaults of the `config` field initializer. -/
def defaultChatState : ChatState where
  clientSet := false
  systemPrompt :=
    "You are a helpful voice assistant. Provide clear, concise, and friendly responses."
  maxHistoryLength := 20
  conversationHistory := []

/-- Embeds `initialize(openai, config?)`: store the client, merge the supplied
configuration over the defaults, and reset the history to the single system
message. -/
def initChat (c : ChatState) (cfgPrompt : Option String)
    (cfgMaxHistoryLength : Option Nat) : ChatState :=
  { c with clientSet := true
           systemPrompt := cfgPrompt.getD c.systemPrompt
           maxHistoryLength := cfgMaxHistoryLength.getD c.maxHistoryLength
           conversationHistory :=
             [⟨.system, cfgPrompt.getD c.systemPrompt⟩] }

/-- JavaScript `Array.prototype.slice(begin)` on a message list: a negative
begin counts from the end and is clamped at zero. -/
def jsSliceFrom (l : List ChatMessage) (begins : Int) : List ChatMessage :=
  if begins < 0 then l.drop ((l.length + begins).toNat)
  else l.drop begins.toNat

/-- Embeds `private trimHistory()`: when the history exceeds
`maxHistoryLength`, keep the first message plus
`slice(-maxHistoryLength + 1)`. -/
def trimHistory (c : ChatState) : ChatState :=
  if c.conversationHistory.length ≤ c.maxHistoryLength then c
  else
    match c.conversationHistory with
    | [] => c
    | h0 :: _ =>
      { c with conversationHistory :=
          h0 :: jsSliceFrom c.conversationHistory (1 - (c.maxHistoryLength : Int)) }

/-- Embeds `clearHistory()`: keep the first system-role message when one
exists. -/
def clearHistory (c : ChatState) : ChatState :=
  match c.conversationHistory.find? (fun m => m.role == Role.system) with
  | some m => { c with conversationHistory := [m] }
  | none => { c with conversationHistory := [] }

/-- Outcome of one `chat.completions.create` call: either a completion whose
`choices[0]?.message?.content` is the given optional string, or a rejection
carrying the error fields the catch block inspects (`status`, `code`,
`message`). -/
inductive ApiOutcome
  | ok (content : Option String)
  | err (status : Option Nat) (code : Option String) (msg : String)
deriving DecidableEq, Repr

/-- Result of a `sendMessage` call: the final manager state, the returned text
or thrown message, and how many API calls were issued in total (counting the
recursive retry). -/
structure SendResult where
  chat : ChatState
  result : Except String String
  apiCalls : Nat
deriving Repr

/-- Embeds `async sendMessage(userMessage)`.  `outcomes` supplies the result
of each successive API call (the head for the present call, the tail for the
recursive retry after a `context_length_exceeded` error); an empty list is a
modelling artifact and reports a failure without an API call. -/
def sendMessage (c : ChatState) (userMessage : String)
    (outcomes : List ApiOutcome) : SendResult :=
  if !c.clientSet then
    ⟨c, .error "Chat not initialized. Please call initialize first.", 0⟩
  else
    let c1 := trimHistory
      { c with conversationHistory :=
          c.conversationHistory ++ [⟨.user, userMessage⟩] }
    match outcomes with
    | [] => ⟨c1, .error "no API outcome supplied", 0⟩
    | .ok content :: _ =>
      let assistantResponse :=
        content.getD "I apologize, but I could not generate a response."
      ⟨{ c1 with conversationHistory :=
           c1.conversationHistory ++ [⟨.assistant, assistantResponse⟩] },
        .ok assistantResponse, 1⟩
    | .err status code msg :: rest =>
      if status == some 401 then
        ⟨c1, .error "Invalid OpenAI API key. Please check your .env file.", 1⟩
      else if status == some 429 then
        ⟨c1, .error "OpenAI API rate limit exceeded. Please try again later.", 1⟩
      else if status == some 400 then
        ⟨c1, .error ("Invalid request: " ++ msg), 1⟩
      else if code == some "context_length_exceeded" then
        let r := sendMessage (clearHistory c1) userMessage rest
        ⟨r.chat, r.result, r.apiCalls + 1⟩
      else
        ⟨c1, .error ("Chat error: " ++ msg), 1⟩
termination_by outcomes.length
decreasing_by simp

/-- Folds a sequence of `sendMessage` calls (message text plus the API
outcomes each call observes) over a manager state. -/
def runSends (c : ChatState) : List (String × List ApiOutcome) → ChatState
  | [] => c
  | (msg, outs) :: rest => runSends (sendMessage c msg outs).chat rest

/-!  Derived definitions used by the theorems below: concrete scenario states,
trace abbreviations and auxiliary predicates. -/

/-- A grace-wait external call that neither stops the session nor injects a
Transcript Source error (a plain timer tick or a transcript arrival). -/
def GraceAction.quiet : GraceAction → Bool
  | .tick => true
  | .arrive _ => true
  | .stopCall => false
  | .sttErr _ => false

/-- The field values `stop()` leaves behind, starting from state `o`. -/
def stoppedFields (o : Orchestrator) : Orchestrator :=
  { o with isActive := false
           currentState := .idle
           processingResponse := false
           isCollectingSpeech := false
           transcriptionTimeoutSet := false
           speechCollectionTimerSet := false
           sttSessionBound := false }

/-- The orchestrator state mid-window: right after an accepted
`startRecording()` from the single-turn started state. -/
def listeningOrch : Orchestrator := (startRecording singleTurnStarted 0).1

/-- C2 scenario, step 1: `startRecording()` from the single-turn started
state. -/
def c2Start : Orchestrator × List Event := startRecording singleTurnStarted 0

/-- C2 scenario, step 2: the fragment "hello" arrives during the window. -/
def c2Frag : Orchestrator × List Event := onTranscription c2Start.1 "hello"

/-- C2 scenario, step 3: the window timer fires; the Chat Responder returns
"hi there" and the Speech Synthesizer returns the bytes `[1, 2]`; no `stop()`
interleaves. -/
def c2Turn : TurnResult :=
  windowTimerFire c2Frag.1 [] (Except.ok "hi there") (Except.ok [1, 2])
    false false false

/-- The complete event trace of the C2 scenario. -/
def c2Trace : List Event := c2Start.2 ++ c2Frag.2 ++ c2Turn.events

/-- The event order claim C2 asserts for that scenario, with the
specification state names mapped to the source names (`responding` is
`ai_thinking`, `synthesizing` is `tts_generating`, `speaking` is
`ai_speaking`). -/
def c2ClaimedTrace : List Event :=
  [Event.state_changed .listening,
   Event.state_changed .transcribing,
   Event.state_changed .ai_thinking,
   Event.user_spoke "hello",
   Event.state_changed .tts_generating,
   Event.ai_response "hi there",
   Event.state_changed .ai_speaking,
   Event.ai_audio [1, 2],
   Event.state_changed .idle,
   Event.turn_complete]

/-- C3 counterexample scenario, step 1: `startRecording()` from the
single-turn started state. -/
def c3Start : Orchestrator × List Event := startRecording singleTurnStarted 0

/-- C3 counterexample scenario, step 2: a Transcript Source error arrives
mid-window (before the window timer fires). -/
def c3Err : Orchestrator × List Event := onSTTError c3Start.1 "boom"

/-- C3 counterexample scenario, step 3: the window timer — which the STT
error handler did not cancel — fires with no transcript collected. -/
def c3Turn : TurnResult :=
  windowTimerFire c3Err.1 [] (Except.ok "x") (Except.ok []) false false false

/-- The complete event trace of the C3 counterexample scenario. -/
def c3Trace : List Event := c3Start.2 ++ c3Err.2 ++ c3Turn.events

/-- C4 counterexample run: `stop()` is called during the first polling
iteration of the grace wait, with no transcript collected. -/
def c4Turn : TurnResult :=
  windowTimerFire listeningOrch [[GraceAction.stopCall]]
    (Except.ok "x") (Except.ok []) false false false

/-- The API outcome sequence of the C9 counterexample: the first chat call
rejects with `code = context_length_exceeded` (and no HTTP status), the second
succeeds. -/
def ctxRetryOutcomes : List ApiOutcome :=
  [ApiOutcome.err none (some "context_length_exceeded") "ctx",
   ApiOutcome.ok (some "hi")]

/-- A chat manager initialized with the default configuration. -/
def initializedChat : ChatState := initChat defaultChatState none none


/-!  Theorems. -/

example :
    start initialOrchestrator true true (some .singleTurn) none none =
      .ok (singleTurnStarted,
        [Event.state_changed .idle, Event.started .singleTurn]) := rfl

/-- C1.  Single-flight guard: from any session state in which
`isCollectingSpeech` is true, or `processingResponse` is true, or the session
is inactive, `startRecording()` is a complete no-op (no field changes, no
timer armed, no event emitted); from an active session with both flags false
it opens a collection window: `lastTranscription` (the pending transcript) is
cleared, `isCollectingSpeech` is set, the state becomes listening, and the one
window timer is armed. -/
theorem startRecording_single_flight (o : Orchestrator) (now : Nat) :
    ((o.isCollectingSpeech = true ∨ o.processingResponse = true ∨
        o.isActive = false) →
      startRecording o now = (o, [])) ∧
    (o.isActive = true → o.processingResponse = false →
      o.isCollectingSpeech = false →
      startRecording o now =
        ({ o with isCollectingSpeech := true
                  speechStartTime := now
                  lastTranscription := ""
                  currentState := .listening
                  speechCollectionTimerSet := true },
          [Event.state_changed .listening, Event.user_speaking])) := by
  constructor
  · rintro (h | h | h) <;> simp [startRecording, h]
  · intro h1 h2 h3
    simp [startRecording, setState, h1, h2, h3]

/-- Witness for C1, at the inactive initial state (guarded branch) and at the
freshly started single-turn state (accepting branch). -/
theorem startRecording_single_flight_witness :
    startRecording initialOrchestrator 5 = (initialOrchestrator, []) ∧
    startRecording singleTurnStarted 0 =
      ({ singleTurnStarted with
            isCollectingSpeech := true
            speechStartTime := 0
            lastTranscription := ""
            currentState := .listening
            speechCollectionTimerSet := true },
        [Event.state_changed .listening, Event.user_speaking]) :=
  ⟨(startRecording_single_flight initialOrchestrator 5).1
      (Or.inr (Or.inr rfl)),
   (startRecording_single_flight singleTurnStarted 0).2 rfl rfl rfl⟩

/-- C2 counterexample.  In the success scenario (single-turn start,
`startRecording()`, fragment "hello" mid-window, window expiry, chat reply
"hi there", synthesis bytes `[1, 2]`) the emitted trace differs from the order
the claim asserts: the source emits `user_spoke` before entering
`ai_thinking` (responding), emits `ai_response` before entering
`tts_generating` (synthesizing), and additionally emits `user_speaking` right
after `state_changed(listening)`. -/
theorem success_turn_event_order_counterexample :
    c2Trace ≠ c2ClaimedTrace := by decide

/-- C2 amended.  The actual trace of the success scenario: `user_speaking`
follows `state_changed(listening)`; `user_spoke` precedes
`state_changed(ai_thinking)`; `ai_response` precedes
`state_changed(tts_generating)`; the remainder is as claimed. -/
theorem success_turn_event_order_actual :
    c2Trace =
      [Event.state_changed .listening,
       Event.user_speaking,
       Event.state_changed .transcribing,
       Event.user_spoke "hello",
       Event.state_changed .ai_thinking,
       Event.ai_response "hi there",
       Event.state_changed .tts_generating,
       Event.state_changed .ai_speaking,
       Event.ai_audio [1, 2],
       Event.state_changed .idle,
       Event.turn_complete] := by decide

/-- C8.  Fragment filtering frame property: a transcript fragment delivered
while the session is inactive, or while a turn is processing, or while no
collection window is open, or whose trimmed length is below 3, leaves every
session field unchanged and emits no event. -/
theorem fragment_filtering_frame (o : Orchestrator) (t : String)
    (h : o.isActive = false ∨ o.processingResponse = true ∨
      o.isCollectingSpeech = false ∨ (jsTrim t).length < 3) :
    onTranscription o t = (o, []) := by
  unfold onTranscription
  rcases h with h | h | h | h
  · simp [h]
  · simp [h]
  · simp [h]
  · split
    · rfl
    · simp [h]

/-- Witness for C8: a long fragment delivered while no window is open (the
started, not-yet-recording state) is dropped without effect. -/
theorem fragment_filtering_frame_witness :
    onTranscription singleTurnStarted "hello there" =
      (singleTurnStarted, []) :=
  fragment_filtering_frame singleTurnStarted "hello there"
    (Or.inr (Or.inr (Or.inl rfl)))

/-- Any fuel of the grace loop with no external activity leaves the state and
trace untouched. -/
theorem graceLoop_nil (o : Orchestrator) (fuel : Nat) :
    graceLoop o fuel [] = (o, []) := by
  cases fuel <;> rfl

/-- One unfolding step of the grace loop. -/
theorem graceLoop_cons (o : Orchestrator) (fuel : Nat)
    (a : List GraceAction) (rest : List (List GraceAction)) :
    graceLoop o (fuel + 1) (a :: rest) =
      if transcriptEmpty o.lastTranscription then
        ((graceLoop (applyGraceActions o a).1 fuel rest).1,
          (applyGraceActions o a).2 ++
            (graceLoop (applyGraceActions o a).1 fuel rest).2)
      else (o, []) := rfl

/-- A fragment of trimmed length at least 3 does not test as empty. -/
theorem transcriptEmpty_false_of_trim (t : String)
    (h : 3 ≤ (jsTrim t).length) : transcriptEmpty t = false := by
  have h2 : (jsTrim t).length ≠ 0 := by omega
  have h1 : t.length ≠ 0 := by
    intro h0
    apply h2
    cases t with
    | mk data =>
      have hd : data = [] := List.length_eq_zero.mp h0
      subst hd
      rfl
  simp [transcriptEmpty, h1, h2]

/-- C4 counterexample.  With `stop()` called during the first polling
iteration of the grace wait and no transcript collected, the pending window
callback still emits `state_changed(idle)` and `no_speech_detected` after the
`stopped` event, contradicting the claim that it emits no further event. -/
theorem grace_wait_not_cancelled_by_stop :
    c4Turn.events =
      [Event.state_changed .transcribing, Event.state_changed .idle,
       Event.stopped, Event.state_changed .idle, Event.no_speech_detected] ∧
    eventsAfterStopped c4Turn.events =
      [Event.state_changed .idle, Event.no_speech_detected] := by decide

/-- C4 amended.  The grace-wait loop is not cancelled by `stop()`: it keeps
polling.  After the `stopped` event no session field changes value (the
callback re-writes values `stop()` already set), but when the loop ends with
an empty transcript the callback still emits `state_changed(idle)` and
`no_speech_detected`; only when a fragment was captured before the stop does
the callback emit nothing further (`handleUserTranscription` drops the turn on
its inactivity check, so the Chat Responder is never invoked). -/
theorem grace_wait_stop_behavior (o : Orchestrator) (t : String)
    (chat : Except String String) (tts : Except String (List Nat))
    (hA : o.isActive = true) (hP : o.processingResponse = false)
    (hC : o.isCollectingSpeech = true)
    (hE : transcriptEmpty o.lastTranscription = true)
    (ht : 3 ≤ (jsTrim t).length) :
    windowTimerFire o [[GraceAction.stopCall]] chat tts false false false =
      ⟨stoppedFields o,
        [Event.state_changed .transcribing, Event.state_changed .idle,
         Event.stopped, Event.state_changed .idle, Event.no_speech_detected],
        []⟩ ∧
    windowTimerFire o [[GraceAction.arrive t, GraceAction.stopCall]] chat tts
        false false false =
      ⟨{ stoppedFields o with lastTranscription := t },
        [Event.state_changed .transcribing, Event.state_changed .idle,
         Event.stopped],
        []⟩ := by
  have ht3 : ¬((jsTrim t).length < 3) := by omega
  have htE : transcriptEmpty t = false := transcriptEmpty_false_of_trim t ht
  have h30 : (30 : Nat) = 29 + 1 := rfl
  constructor
  · simp [windowTimerFire, h30, graceLoop_cons, graceLoop_nil,
      applyGraceActions, applyGraceAction, stop, setState, onTranscription,
      handleUserTranscription, stoppedFields, hA, hP, hC, hE]
  · simp [windowTimerFire, h30, graceLoop_cons, graceLoop_nil,
      applyGraceActions, applyGraceAction, stop, setState, onTranscription,
      handleUserTranscription, stoppedFields, hA, hP, hC, hE, ht3, htE]

/-- Witness for C4, from the mid-window state with the fragment
"hello there". -/
theorem grace_wait_stop_behavior_witness :
    windowTimerFire listeningOrch [[GraceAction.stopCall]]
        (Except.ok "x") (Except.ok []) false false false =
      ⟨stoppedFields listeningOrch,
        [Event.state_changed .transcribing, Event.state_changed .idle,
         Event.stopped, Event.state_changed .idle, Event.no_speech_detected],
        []⟩ ∧
    windowTimerFire listeningOrch
        [[GraceAction.arrive "hello there", GraceAction.stopCall]]
        (Except.ok "x") (Except.ok []) false false false =
      ⟨{ stoppedFields listeningOrch with lastTranscription := "hello there" },
        [Event.state_changed .transcribing, Event.state_changed .idle,
         Event.stopped],
        []⟩ :=
  grace_wait_stop_behavior listeningOrch "hello there"
    (Except.ok "x") (Except.ok []) rfl rfl rfl rfl (by decide)

/-- C5.  Late synthesis result discarded: when `stop()` is called while the
turn is in `tts_generating` (synthesizing) and the Speech Synthesizer call
later resolves successfully, the turn emits nothing after the `stopped`
event — no `ai_audio`, no further `state_changed`, no `turn_complete`, no
`error`. -/
theorem stop_during_synthesis_drops_late_result (o : Orchestrator)
    (t r : String) (b : List Nat)
    (hA : o.isActive = true) (hP : o.processingResponse = false) :
    (handleUserTranscription o t (.ok r) (.ok b) false true false).events =
      [Event.user_spoke t, Event.state_changed .ai_thinking,
       Event.ai_response r, Event.state_changed .tts_generating,
       Event.state_changed .idle, Event.stopped] ∧
    eventsAfterStopped
      (handleUserTranscription o t (.ok r) (.ok b) false true false).events =
      [] := by
  have h : (handleUserTranscription o t (.ok r) (.ok b) false true false).events =
      [Event.user_spoke t, Event.state_changed .ai_thinking,
       Event.ai_response r, Event.state_changed .tts_generating,
       Event.state_changed .idle, Event.stopped] := by
    simp [handleUserTranscription, setState, stop, hA, hP]
  refine ⟨h, ?_⟩
  rw [h]
  rfl

/-- Witness for C5, from the mid-window state with transcript "hey", chat
reply "r" and synthesis bytes `[7]`. -/
theorem stop_during_synthesis_drops_late_result_witness :
    (handleUserTranscription listeningOrch "hey" (.ok "r") (.ok [7])
        false true false).events =
      [Event.user_spoke "hey", Event.state_changed .ai_thinking,
       Event.ai_response "r", Event.state_changed .tts_generating,
       Event.state_changed .idle, Event.stopped] ∧
    eventsAfterStopped
      (handleUserTranscription listeningOrch "hey" (.ok "r") (.ok [7])
        false true false).events = [] :=
  stop_during_synthesis_drops_late_result listeningOrch "hey" "r" [7] rfl rfl

/-- C6 counterexample.  Running the full successful single-turn scenario, the
session does NOT self-stop: `isActive` stays true, the state returns to idle,
and no `stopped` event is emitted. -/
theorem single_turn_no_self_stop_counterexample :
    singleTurnStarted.mode = ConversationMode.singleTurn ∧
    c2Turn.orch.isActive = true ∧
    c2Turn.orch.currentState = ConversationState.idle ∧
    Event.stopped ∉ c2Trace := by decide

/-- C6 amended.  The mode has no effect on turn completion: for either mode,
after a successful turn pipeline the session remains active, returns to idle
with the processing flag cleared, emits no `stopped` event, and ends the trace
with `turn_complete` (awaiting the next manual `startRecording`). -/
theorem turn_completion_mode_independent (o : Orchestrator)
    (m : ConversationMode) (t r : String) (b : List Nat)
    (hA : o.isActive = true) (hP : o.processingResponse = false) :
    ((handleUserTranscription { o with mode := m } t (.ok r) (.ok b)
        false false false).orch.isActive = true) ∧
    ((handleUserTranscription { o with mode := m } t (.ok r) (.ok b)
        false false false).orch.currentState = .idle) ∧
    ((handleUserTranscription { o with mode := m } t (.ok r) (.ok b)
        false false false).orch.processingResponse = false) ∧
    Event.stopped ∉ (handleUserTranscription { o with mode := m } t (.ok r)
        (.ok b) false false false).events ∧
    (handleUserTranscription { o with mode := m } t (.ok r) (.ok b)
        false false false).events.getLast? = some Event.turn_complete := by
  simp [handleUserTranscription, setState, hA, hP]

/-- Witness for C6, at the mid-window state in single-turn mode. -/
theorem turn_completion_mode_independent_witness :
    ((handleUserTranscription
        { listeningOrch with mode := ConversationMode.singleTurn } "hey"
        (.ok "r") (.ok [7]) false false false).orch.isActive = true) ∧
    ((handleUserTranscription
        { listeningOrch with mode := ConversationMode.singleTurn } "hey"
        (.ok "r") (.ok [7]) false false false).orch.currentState = .idle) ∧
    ((handleUserTranscription
        { listeningOrch with mode := ConversationMode.singleTurn } "hey"
        (.ok "r") (.ok [7]) false false false).orch.processingResponse
      = false) ∧
    Event.stopped ∉ (handleUserTranscription
        { listeningOrch with mode := ConversationMode.singleTurn } "hey"
        (.ok "r") (.ok [7]) false false false).events ∧
    (handleUserTranscription
        { listeningOrch with mode := ConversationMode.singleTurn } "hey"
        (.ok "r") (.ok [7]) false false false).events.getLast?
      = some Event.turn_complete :=
  turn_completion_mode_independent listeningOrch ConversationMode.singleTurn
    "hey" "r" [7] rfl rfl

/-- A quiet external call (tick or transcript arrival) can only overwrite the
pending transcript: it changes no other field and emits nothing. -/
theorem applyGraceAction_quiet (o : Orchestrator) (a : GraceAction)
    (h : a.quiet = true) :
    ∃ t, applyGraceAction o a = ({ o with lastTranscription := t }, []) := by
  cases a with
  | tick => exact ⟨o.lastTranscription, rfl⟩
  | arrive s =>
    show ∃ t, onTranscription o s = _
    unfold onTranscription
    split
    · exact ⟨o.lastTranscription, rfl⟩
    · split
      · exact ⟨o.lastTranscription, rfl⟩
      · exact ⟨s, rfl⟩
  | stopCall => simp [GraceAction.quiet] at h
  | sttErr m => simp [GraceAction.quiet] at h

/-- A list of quiet external calls can only overwrite the pending
transcript. -/
theorem applyGraceActions_quiet (g : List GraceAction) (o : Orchestrator)
    (h : ∀ a ∈ g, a.quiet = true) :
    ∃ t, applyGraceActions o g = ({ o with lastTranscription := t }, []) := by
  induction g generalizing o with
  | nil => exact ⟨o.lastTranscription, rfl⟩
  | cons a rest ih =>
    obtain ⟨t1, h1⟩ := applyGraceAction_quiet o a (h a (by simp))
    obtain ⟨t2, h2⟩ :=
      ih { o with lastTranscription := t1 } (fun x hx => h x (by simp [hx]))
    refine ⟨t2, ?_⟩
    simp [applyGraceActions, h1, h2]

/-- The grace loop under quiet external activity can only overwrite the
pending transcript, and emits nothing. -/
theorem graceLoop_quiet (fuel : Nat) (acts : List (List GraceAction))
    (o : Orchestrator) (h : ∀ g ∈ acts, ∀ a ∈ g, a.quiet = true) :
    ∃ t, graceLoop o fuel acts = ({ o with lastTranscription := t }, []) := by
  induction fuel generalizing o acts with
  | zero => exact ⟨o.lastTranscription, rfl⟩
  | succ n ih =>
    cases acts with
    | nil => exact ⟨o.lastTranscription, rfl⟩
    | cons g rest =>
      rw [graceLoop_cons]
      split
      · obtain ⟨t1, h1⟩ := applyGraceActions_quiet g o (h g (by simp))
        obtain ⟨t2, h2⟩ := ih rest { o with lastTranscription := t1 }
          (fun x hx => h x (by simp [hx]))
        refine ⟨t2, ?_⟩
        simp [h1, h2]
      · exact ⟨o.lastTranscription, rfl⟩

/-- Terminal-signal count distributes over trace concatenation. -/
theorem terminalCount_append (a b : List Event) :
    terminalCount (a ++ b) = terminalCount a + terminalCount b := by
  simp [terminalCount, List.filter_append]

/-- The turn pipeline, run from an active non-processing state with no
`stop()` interleaved, emits exactly one terminal signal and passes through
`state_changed(idle)`, whatever the collaborator outcomes. -/
theorem handleUserTranscription_terminal (o : Orchestrator) (t : String)
    (chat : Except String String) (tts : Except String (List Nat))
    (hA : o.isActive = true) (hP : o.processingResponse = false) :
    terminalCount
        (handleUserTranscription o t chat tts false false false).events = 1 ∧
    Event.state_changed ConversationState.idle ∈
      (handleUserTranscription o t chat tts false false false).events := by
  cases chat with
  | error m =>
    simp [handleUserTranscription, setState, hA, hP, terminalCount,
      isTerminalSignal]
  | ok r =>
    cases tts with
    | error m =>
      simp [handleUserTranscription, setState, hA, hP, terminalCount,
        isTerminalSignal]
    | ok b =>
      simp [handleUserTranscription, setState, hA, hP, terminalCount,
        isTerminalSignal]

/-- C3 counterexample.  An attempted turn during which a Transcript Source
error arrives mid-window — with no `stop()` anywhere — emits TWO terminal
signals: the `error` from the STT handler and, because that handler does not
cancel the still-armed window timer, a later `no_speech_detected` from the
window callback. -/
theorem terminal_signal_duplicated_on_stt_error :
    terminalCount c3Trace = 2 ∧ Event.stopped ∉ c3Trace := by decide

/-- C3 amended.  For every attempted turn that reaches its terminal outcome
without `stop()` AND without a Transcript Source error intervening, the
window-expiry callback emits `state_changed(idle)` plus exactly one of
`turn_complete`, `no_speech_detected`, or `error` — never zero and never more
than one. -/
theorem windowTimerFire_exactly_one_terminal (o : Orchestrator)
    (acts : List (List GraceAction)) (chat : Except String String)
    (tts : Except String (List Nat))
    (hA : o.isActive = true) (hP : o.processingResponse = false)
    (hq : ∀ g ∈ acts, ∀ a ∈ g, a.quiet = true) :
    terminalCount
        (windowTimerFire o acts chat tts false false false).events = 1 ∧
    Event.state_changed ConversationState.idle ∈
      (windowTimerFire o acts chat tts false false false).events := by
  obtain ⟨t, hg⟩ := graceLoop_quiet 30 acts
    { o with currentState := ConversationState.transcribing
             transcriptionTimeoutSet := false } hq
  unfold windowTimerFire
  simp only [setState]
  rw [hg]
  by_cases he : transcriptEmpty t = true
  · simp [he, setState, terminalCount, isTerminalSignal]
  · obtain ⟨h1, h2⟩ := handleUserTranscription_terminal
      { o with currentState := ConversationState.transcribing
               transcriptionTimeoutSet := false
               lastTranscription := t } t chat tts hA hP
    simp only [Bool.not_eq_true] at he
    simp [he, terminalCount_append, h1, h2, terminalCount, isTerminalSignal]
    exact h1

/-- Witness for C3 amended: a quiet window from the mid-window state with a
successful chat and synthesis outcome. -/
theorem windowTimerFire_exactly_one_terminal_witness :
    terminalCount
        (windowTimerFire listeningOrch [[GraceAction.arrive "hello there"]]
          (Except.ok "hi") (Except.ok [1]) false false false).events = 1 ∧
    Event.state_changed ConversationState.idle ∈
      (windowTimerFire listeningOrch [[GraceAction.arrive "hello there"]]
        (Except.ok "hi") (Except.ok [1]) false false false).events :=
  windowTimerFire_exactly_one_terminal listeningOrch
    [[GraceAction.arrive "hello there"]] (Except.ok "hi") (Except.ok [1])
    rfl rfl (by decide)

/-- The last element of a nonempty list (with default) is a member. -/
theorem getLastD_mem_of_ne_nil (ts : List String) (d : String) (h : ts ≠ []) :
    ts.getLastD d ∈ ts := by
  induction ts generalizing d with
  | nil => exact absurd rfl h
  | cons t rest ih =>
    cases rest with
    | nil => simp [List.getLastD]
    | cons u rest2 =>
      rw [List.getLastD_cons]
      exact List.mem_cons_of_mem _ (ih t (by simp))

/-- During an open collection window, each accepted fragment overwrites the
pending transcript, so a fragment sequence leaves exactly its last element. -/
theorem deliverFragments_eq (ts : List String) (o : Orchestrator)
    (hA : o.isActive = true) (hP : o.processingResponse = false)
    (hC : o.isCollectingSpeech = true)
    (hall : ∀ t ∈ ts, 3 ≤ (jsTrim t).length) :
    deliverFragments o ts =
      { o with lastTranscription := ts.getLastD o.lastTranscription } := by
  induction ts generalizing o with
  | nil => rfl
  | cons t rest ih =>
    have h3 : ¬((jsTrim t).length < 3) := by
      have := hall t (by simp)
      omega
    have hstep : onTranscription o t = ({ o with lastTranscription := t }, []) := by
      unfold onTranscription
      simp [hA, hP, hC, h3]
    show deliverFragments (onTranscription o t).1 rest = _
    rw [hstep]
    rw [ih { o with lastTranscription := t } hA hP hC
      (fun x hx => hall x (by simp [hx]))]
    rw [List.getLastD_cons]

/-- Whenever the guard admits the turn, the Chat Responder is invoked exactly
once, with exactly the handed-over transcription — whatever the collaborator
outcomes and whatever `stop()` calls interleave. -/
theorem handleUserTranscription_chatCalls (o : Orchestrator) (t : String)
    (chat : Except String String) (tts : Except String (List Nat))
    (s1 s2 s3 : Bool)
    (hA : o.isActive = true) (hP : o.processingResponse = false) :
    (handleUserTranscription o t chat tts s1 s2 s3).chatCalls = [t] := by
  unfold handleUserTranscription
  cases chat <;> cases tts <;> cases s1 <;> cases s2 <;> cases s3 <;>
    simp [hA, hP, stop, setState]

/-- C7.  Last-fragment-wins: over a collection window during which one or
more fragments, each of trimmed length at least 3, arrive, every fragment
overwrites the pending transcript (the final value is the last fragment, not
a concatenation), and on window expiry the Chat Responder `sendMessage` is
invoked with exactly the text of the last fragment. -/
theorem last_fragment_wins (o : Orchestrator) (ts : List String)
    (chat : Except String String) (tts : Except String (List Nat))
    (hA : o.isActive = true) (hP : o.processingResponse = false)
    (hC : o.isCollectingSpeech = true)
    (hne : ts ≠ []) (hall : ∀ t ∈ ts, 3 ≤ (jsTrim t).length) :
    (deliverFragments o ts).lastTranscription = ts.getLastD "" ∧
    (windowTimerFire (deliverFragments o ts) [] chat tts
        false false false).chatCalls = [ts.getLastD ""] := by
  have hL3 : 3 ≤ (jsTrim (ts.getLastD "")).length :=
    hall _ (getLastD_mem_of_ne_nil ts "" hne)
  have hEm : transcriptEmpty (ts.getLastD "") = false :=
    transcriptEmpty_false_of_trim _ hL3
  have hd : ts.getLastD o.lastTranscription = ts.getLastD "" := by
    cases ts with
    | nil => exact absurd rfl hne
    | cons t rest => rw [List.getLastD_cons, List.getLastD_cons]
  have heq : deliverFragments o ts =
      { o with lastTranscription := ts.getLastD "" } := by
    rw [deliverFragments_eq ts o hA hP hC hall, hd]
  constructor
  · rw [heq]
  · rw [heq]
    unfold windowTimerFire
    simp only [setState]
    rw [graceLoop_nil]
    simp only [hEm]
    rw [if_neg (by simp [hEm])]
    exact handleUserTranscription_chatCalls _ _ chat tts false false false hA hP

/-- Witness for C7: two fragments arrive during the window; the Chat
Responder is invoked with exactly the second. -/
theorem last_fragment_wins_witness :
    (deliverFragments listeningOrch
        ["turn the", "turn the lights on"]).lastTranscription =
      (["turn the", "turn the lights on"].getLastD "") ∧
    (windowTimerFire
        (deliverFragments listeningOrch ["turn the", "turn the lights on"]) []
        (Except.ok "done") (Except.ok [1]) false false false).chatCalls =
      [["turn the", "turn the lights on"].getLastD ""] :=
  last_fragment_wins listeningOrch ["turn the", "turn the lights on"]
    (Except.ok "done") (Except.ok [1]) rfl rfl rfl (by decide) (by decide)

/-- C9 counterexample.  A chat fault with `code = context_length_exceeded`
(and none of the special HTTP statuses) does NOT fail the call: `sendMessage`
clears the history and retries itself, and with a succeeding second API call
the overall call RETURNS the retried answer after two API invocations. -/
theorem sendMessage_context_length_retry_counterexample :
    (sendMessage initializedChat "hello" ctxRetryOutcomes).result =
      .ok "hi" ∧
    (sendMessage initializedChat "hello" ctxRetryOutcomes).apiCalls = 2 := by
  constructor <;>
    simp [sendMessage, ctxRetryOutcomes, initializedChat, initChat,
      defaultChatState, trimHistory, clearHistory, jsSliceFrom]

/-- C9 amended.  Any chat fault whose `code` is not
`context_length_exceeded` — auth (401), rate-limit (429), or any other —
fails the call with a chat error after exactly one API invocation, and the
orchestrator invokes `sendMessage` exactly once per admitted turn (it never
retries a failed collaborator call); but `sendMessage` itself special-cases a
`context_length_exceeded` fault that carries none of the statuses 401, 429,
400: it clears the history (keeping the system prompt) and retries the call
recursively. -/
theorem sendMessage_error_uniform_no_retry (c : ChatState)
    (m msg : String) (status : Option Nat) (code : Option String)
    (rest : List ApiOutcome)
    (hInit : c.clientSet = true)
    (hcode : code ≠ some "context_length_exceeded") :
    (∃ e, (sendMessage c m (ApiOutcome.err status code msg :: rest)).result =
      Except.error e) ∧
    (sendMessage c m (ApiOutcome.err status code msg :: rest)).apiCalls = 1 ∧
    (∀ (o : Orchestrator) (t : String) (chat : Except String String)
      (tts : Except String (List Nat)) (s1 s2 s3 : Bool),
      o.isActive = true → o.processingResponse = false →
      (handleUserTranscription o t chat tts s1 s2 s3).chatCalls = [t]) ∧
    (∀ (m2 : String) (rest2 : List ApiOutcome),
      sendMessage c m
          (ApiOutcome.err none (some "context_length_exceeded") m2 :: rest2) =
        ⟨(sendMessage (clearHistory (trimHistory
              { c with conversationHistory :=
                  c.conversationHistory ++ [⟨Role.user, m⟩] })) m rest2).chat,
         (sendMessage (clearHistory (trimHistory
              { c with conversationHistory :=
                  c.conversationHistory ++ [⟨Role.user, m⟩] })) m rest2).result,
         (sendMessage (clearHistory (trimHistory
              { c with conversationHistory :=
                  c.conversationHistory ++ [⟨Role.user, m⟩] })) m
            rest2).apiCalls + 1⟩) := by
  refine ⟨?_, ?_, ?_, ?_⟩
  · unfold sendMessage
    simp only [hInit, Bool.not_true, Bool.false_eq_true, if_false]
    split
    · exact ⟨_, rfl⟩
    · split
      · exact ⟨_, rfl⟩
      · split
        · exact ⟨_, rfl⟩
        · split
          · next hctx => exact absurd (by simpa using hctx) hcode
          · exact ⟨_, rfl⟩
  · unfold sendMessage
    simp only [hInit, Bool.not_true, Bool.false_eq_true, if_false]
    split
    · rfl
    · split
      · rfl
      · split
        · rfl
        · split
          · next hctx => exact absurd (by simpa using hctx) hcode
          · rfl
  · intro o t chat tts s1 s2 s3 hA hP
    exact handleUserTranscription_chatCalls o t chat tts s1 s2 s3 hA hP
  · intro m2 rest2
    conv_lhs => rw [sendMessage]
    simp [hInit]

/-- Witness for C9 amended: an auth fault (status 401) at the default-config
manager fails with the auth error message after one API call. -/
theorem sendMessage_error_uniform_no_retry_witness :
    (∃ e, (sendMessage initializedChat "hello"
        (ApiOutcome.err (some 401) none "unauthorized" :: [])).result =
      Except.error e) ∧
    (sendMessage initializedChat "hello"
        (ApiOutcome.err (some 401) none "unauthorized" :: [])).apiCalls = 1 ∧
    (∀ (o : Orchestrator) (t : String) (chat : Except String String)
      (tts : Except String (List Nat)) (s1 s2 s3 : Bool),
      o.isActive = true → o.processingResponse = false →
      (handleUserTranscription o t chat tts s1 s2 s3).chatCalls = [t]) ∧
    (∀ (m2 : String) (rest2 : List ApiOutcome),
      sendMessage initializedChat "hello"
          (ApiOutcome.err none (some "context_length_exceeded") m2 :: rest2) =
        ⟨(sendMessage (clearHistory (trimHistory
              { initializedChat with conversationHistory :=
                  initializedChat.conversationHistory ++
                    [⟨Role.user, "hello"⟩] })) "hello" rest2).chat,
         (sendMessage (clearHistory (trimHistory
              { initializedChat with conversationHistory :=
                  initializedChat.conversationHistory ++
                    [⟨Role.user, "hello"⟩] })) "hello" rest2).result,
         (sendMessage (clearHistory (trimHistory
              { initializedChat with conversationHistory :=
                  initializedChat.conversationHistory ++
                    [⟨Role.user, "hello"⟩] })) "hello" rest2).apiCalls + 1⟩) :=
  sendMessage_error_uniform_no_retry initializedChat "hello" "unauthorized"
    (some 401) none [] rfl (by decide)

/-- Trimming never changes the configuration fields. -/
theorem trimHistory_fields (c : ChatState) :
    (trimHistory c).maxHistoryLength = c.maxHistoryLength ∧
    (trimHistory c).clientSet = c.clientSet := by
  unfold trimHistory
  split
  · exact ⟨rfl, rfl⟩
  · split <;> exact ⟨rfl, rfl⟩

/-- Clearing the history never changes the configuration fields. -/
theorem clearHistory_fields (c : ChatState) :
    (clearHistory c).maxHistoryLength = c.maxHistoryLength ∧
    (clearHistory c).clientSet = c.clientSet := by
  unfold clearHistory
  split <;> exact ⟨rfl, rfl⟩

/-- Trimming preserves the first history entry. -/
theorem trimHistory_head (c : ChatState) :
    (trimHistory c).conversationHistory.head? =
      c.conversationHistory.head? := by
  unfold trimHistory
  split
  · rfl
  · split
    · rfl
    · next h0 t heq => simp [heq]

/-- After trimming, the history fits in `maxHistoryLength` entries (for any
`maxHistoryLength` of at least 2). -/
theorem trimHistory_length (c : ChatState) (hmax : 2 ≤ c.maxHistoryLength) :
    (trimHistory c).conversationHistory.length ≤ c.maxHistoryLength := by
  unfold trimHistory
  split
  · next h => exact h
  · next h =>
    split
    · next heq =>
      rw [heq] at h
      simp at h
    · next h0 t heq =>
      simp only [List.length_cons, jsSliceFrom]
      rw [if_pos (by omega : (1 : Int) - (c.maxHistoryLength : Int) < 0)]
      simp only [List.length_drop]
      omega

/-- When trimming fires, it keeps the first entry and drops exactly the
oldest `length + 1 - maxHistoryLength` entries of the tail, keeping the most
recent suffix. -/
theorem trimHistory_shape (d : ChatState) (hmax : 2 ≤ d.maxHistoryLength)
    (hlen : d.maxHistoryLength < d.conversationHistory.length) :
    (trimHistory d).conversationHistory =
      d.conversationHistory.take 1 ++
        d.conversationHistory.drop
          (d.conversationHistory.length + 1 - d.maxHistoryLength) := by
  unfold trimHistory
  rw [if_neg (by omega)]
  split
  · next heq =>
    rw [heq] at hlen
    simp at hlen
  · next h0 t heq =>
    simp only [jsSliceFrom]
    rw [if_pos (by omega : (1 : Int) - (d.maxHistoryLength : Int) < 0)]
    have harith :
        (((d.conversationHistory.length : Int) +
          (1 - (d.maxHistoryLength : Int)))).toNat =
          d.conversationHistory.length + 1 - d.maxHistoryLength := by
      omega
    rw [harith, heq]
    simp

/-- A history whose head is the system message decomposes as such. -/
theorem head_system_cases (l : List ChatMessage)
    (h : l.head?.map ChatMessage.role = some Role.system) :
    ∃ h0 t, l = h0 :: t ∧ h0.role = Role.system := by
  cases l with
  | nil => simp at h
  | cons h0 t =>
    refine ⟨h0, t, rfl, ?_⟩
    simpa using h

/-- Clearing a history whose first entry is the system message keeps exactly
that entry. -/
theorem clearHistory_of_head_system (c : ChatState) (h0 : ChatMessage)
    (t : List ChatMessage) (he : c.conversationHistory = h0 :: t)
    (hr : h0.role = Role.system) :
    clearHistory c = { c with conversationHistory := [h0] } := by
  unfold clearHistory
  rw [he, List.find?_cons_of_pos _ (by simp [hr])]

/-- Pushing the user message and trimming keeps the system head and fits the
history within `maxHistoryLength`. -/
theorem pushTrim_facts (c : ChatState) (m : String)
    (hmax : 2 ≤ c.maxHistoryLength)
    (hhead : c.conversationHistory.head?.map ChatMessage.role
      = some Role.system) :
    ((trimHistory { c with conversationHistory :=
        c.conversationHistory ++ [⟨Role.user, m⟩] }).conversationHistory.head?.map
        ChatMessage.role = some Role.system) ∧
    (trimHistory { c with conversationHistory :=
        c.conversationHistory ++ [⟨Role.user, m⟩] }).conversationHistory.length ≤
      c.maxHistoryLength := by
  obtain ⟨h0, t, heq, hrole⟩ := head_system_cases _ hhead
  constructor
  · rw [trimHistory_head]
    simp [heq, hrole]
  · exact trimHistory_length _ hmax

/-- One `sendMessage` call never changes the configuration fields. -/
theorem sendMessage_fields (outcomes : List ApiOutcome) :
    ∀ (c : ChatState) (m : String),
    (sendMessage c m outcomes).chat.maxHistoryLength = c.maxHistoryLength ∧
    (sendMessage c m outcomes).chat.clientSet = c.clientSet := by
  induction outcomes with
  | nil =>
    intro c m
    rw [sendMessage]
    simp only []
    split
    · exact ⟨rfl, rfl⟩
    · simp [trimHistory_fields]
  | cons o rest ih =>
    intro c m
    cases o with
    | ok content =>
      rw [sendMessage]
      simp only []
      split
      · exact ⟨rfl, rfl⟩
      · simp [trimHistory_fields]
    | err status code msg =>
      rw [sendMessage]
      simp only []
      split
      · exact ⟨rfl, rfl⟩
      · split
        · simp [trimHistory_fields]
        · split
          · simp [trimHistory_fields]
          · split
            · simp [trimHistory_fields]
            · split
              · simp [ih, clearHistory_fields, trimHistory_fields]
              · simp [trimHistory_fields]

/-- One `sendMessage` call — whatever its outcome, including the internal
context-length retry — keeps the system head and the `maxHistoryLength + 1`
bound. -/
theorem sendMessage_inv (outcomes : List ApiOutcome) :
    ∀ (c : ChatState) (m : String),
    2 ≤ c.maxHistoryLength →
    c.conversationHistory.head?.map ChatMessage.role = some Role.system →
    c.conversationHistory.length ≤ c.maxHistoryLength + 1 →
    (sendMessage c m outcomes).chat.conversationHistory.head?.map
        ChatMessage.role = some Role.system ∧
    (sendMessage c m outcomes).chat.conversationHistory.length ≤
      c.maxHistoryLength + 1 := by
  induction outcomes with
  | nil =>
    intro c m hmax hhead hlen
    rw [sendMessage]
    simp only []
    split
    · exact ⟨hhead, hlen⟩
    · obtain ⟨hh1, hl1⟩ := pushTrim_facts c m hmax hhead
      exact ⟨hh1, le_trans hl1 (Nat.le_succ _)⟩
  | cons o rest ih =>
    intro c m hmax hhead hlen
    obtain ⟨hh1, hl1⟩ := pushTrim_facts c m hmax hhead
    cases o with
    | ok content =>
      rw [sendMessage]
      simp only []
      split
      · exact ⟨hhead, hlen⟩
      · obtain ⟨g0, t1, heq1, hrole1⟩ := head_system_cases _ hh1
        constructor
        · simp [heq1, hrole1]
        · rw [heq1] at hl1
          simp only [List.length_cons] at hl1
          simp [heq1]
          omega
    | err status code msg =>
      rw [sendMessage]
      simp only []
      split
      · exact ⟨hhead, hlen⟩
      · split
        · exact ⟨hh1, le_trans hl1 (Nat.le_succ _)⟩
        · split
          · exact ⟨hh1, le_trans hl1 (Nat.le_succ _)⟩
          · split
            · exact ⟨hh1, le_trans hl1 (Nat.le_succ _)⟩
            · split
              · obtain ⟨g0, t1, heq1, hrole1⟩ := head_system_cases _ hh1
                have hclear := clearHistory_of_head_system _ g0 t1 heq1 hrole1
                have hmaxeq : (trimHistory { c with conversationHistory :=
                    c.conversationHistory ++ [⟨Role.user, m⟩] }).maxHistoryLength
                    = c.maxHistoryLength := (trimHistory_fields _).1
                have hres := ih (clearHistory (trimHistory
                    { c with conversationHistory :=
                        c.conversationHistory ++ [⟨Role.user, m⟩] })) m
                  (by rw [hclear]; simpa [hmaxeq] using hmax)
                  (by rw [hclear]; simp [hrole1])
                  (by rw [hclear]; simp)
                have hmc : (clearHistory (trimHistory
                    { c with conversationHistory :=
                        c.conversationHistory ++ [⟨Role.user, m⟩]
                    })).maxHistoryLength = c.maxHistoryLength := by
                  rw [(clearHistory_fields _).1, hmaxeq]
                refine ⟨hres.1, ?_⟩
                have hb := hres.2
                rw [hmc] at hb
                exact hb
              · exact ⟨hh1, le_trans hl1 (Nat.le_succ _)⟩

/-- A sequence of `sendMessage` calls never changes `maxHistoryLength`. -/
theorem runSends_fields (sends : List (String × List ApiOutcome)) :
    ∀ c : ChatState, (runSends c sends).maxHistoryLength =
      c.maxHistoryLength := by
  induction sends with
  | nil => intro c; rfl
  | cons p rest ih =>
    intro c
    show (runSends (sendMessage c p.1 p.2).chat rest).maxHistoryLength = _
    rw [ih, (sendMessage_fields p.2 c p.1).1]

/-- The system head and the history bound are preserved by any sequence of
`sendMessage` calls. -/
theorem runSends_inv (sends : List (String × List ApiOutcome)) :
    ∀ c : ChatState,
    2 ≤ c.maxHistoryLength →
    c.conversationHistory.head?.map ChatMessage.role = some Role.system →
    c.conversationHistory.length ≤ c.maxHistoryLength + 1 →
    (runSends c sends).conversationHistory.head?.map ChatMessage.role
      = some Role.system ∧
    (runSends c sends).conversationHistory.length ≤
      (runSends c sends).maxHistoryLength + 1 := by
  induction sends with
  | nil => intro c h1 h2 h3; exact ⟨h2, h3⟩
  | cons p rest ih =>
    intro c h1 h2 h3
    have hf := sendMessage_fields p.2 c p.1
    obtain ⟨hh, hb⟩ := sendMessage_inv p.2 c p.1 h1 h2 h3
    show (runSends (sendMessage c p.1 p.2).chat rest).conversationHistory.head?.map
        ChatMessage.role = some Role.system ∧ _
    exact ih (sendMessage c p.1 p.2).chat (by rw [hf.1]; exact h1) hh
      (by rw [hf.1]; exact hb)

/-- C10.  Bounded chat history with the system prompt preserved: after
`initialize` (with any configuration whose `maxHistoryLength` is at least 2;
the default is 20) and any sequence of `sendMessage` calls, the conversation
history always begins with a system-role message and never exceeds
`maxHistoryLength + 1` entries (21 by default); moreover trimming always
retains the first (system) entry and drops exactly the oldest non-system
entries, keeping the most recent suffix. -/
theorem chat_history_bounded_with_system_head (prompt : Option String)
    (maxLen : Option Nat) (sends : List (String × List ApiOutcome))
    (hmax : 2 ≤ maxLen.getD 20) :
    ((runSends (initChat defaultChatState prompt maxLen)
        sends).conversationHistory.head?.map ChatMessage.role =
      some Role.system) ∧
    (runSends (initChat defaultChatState prompt maxLen)
        sends).conversationHistory.length ≤ maxLen.getD 20 + 1 ∧
    (runSends (initChat defaultChatState prompt maxLen)
        sends).maxHistoryLength = maxLen.getD 20 ∧
    (∀ d : ChatState, 2 ≤ d.maxHistoryLength →
      d.maxHistoryLength < d.conversationHistory.length →
      (trimHistory d).conversationHistory =
        d.conversationHistory.take 1 ++
          d.conversationHistory.drop
            (d.conversationHistory.length + 1 - d.maxHistoryLength)) := by
  have hm : (runSends (initChat defaultChatState prompt maxLen)
      sends).maxHistoryLength = maxLen.getD 20 := by
    rw [runSends_fields]
    simp [initChat, defaultChatState]
  have h0 : 2 ≤ (initChat defaultChatState prompt maxLen).maxHistoryLength := by
    simpa [initChat, defaultChatState] using hmax
  have hinv := runSends_inv sends (initChat defaultChatState prompt maxLen) h0
    (by simp [initChat]) (by simp [initChat, defaultChatState])
  refine ⟨hinv.1, ?_, hm, fun d hd1 hd2 => trimHistory_shape d hd1 hd2⟩
  have hb := hinv.2
  rw [hm] at hb
  exact hb

/-- Witness for C10: the default configuration (`maxHistoryLength = 20`) and
one successful exchange. -/
theorem chat_history_bounded_with_system_head_witness :
    ((runSends (initChat defaultChatState none none)
        [("hi", [ApiOutcome.ok (some "yo")])]).conversationHistory.head?.map
        ChatMessage.role = some Role.system) ∧
    (runSends (initChat defaultChatState none none)
        [("hi", [ApiOutcome.ok (some "yo")])]).conversationHistory.length ≤
      (none : Option Nat).getD 20 + 1 ∧
    (runSends (initChat defaultChatState none none)
        [("hi", [ApiOutcome.ok (some "yo")])]).maxHistoryLength =
      (none : Option Nat).getD 20 ∧
    (∀ d : ChatState, 2 ≤ d.maxHistoryLength →
      d.maxHistoryLength < d.conversationHistory.length →
      (trimHistory d).conversationHistory =
        d.conversationHistory.take 1 ++
          d.conversationHistory.drop
            (d.conversationHistory.length + 1 - d.maxHistoryLength)) :=
  chat_history_bounded_with_system_head none none
    [("hi", [ApiOutcome.ok (some "yo")])] (by decide)
